import Mathlib

/-!
Verification of `scripts/create_proposal_doc.py`: a shallow embedding of its
credential manager (`get_credentials`), markdown parser (`parse_markdown`) and
batch-request builder (`create_document`), together with theorems settling the
specification claims about them.

Strings are modelled as `List Char`; the remote Docs service and the OAuth
environment are modelled as explicit records of the outcomes of the external
calls, so that the straight-line effectful code becomes a pure function of
those records.
-/

/-- The ASCII whitespace characters recognised by Python's `str.strip()`. -/
def pyIsSpace (c : Char) : Bool :=
  c == ' ' || c == '\t' || c == '\n' || c == '\x0d' || c == '\x0b' || c == '\x0c'

/-- Python `line.strip()`: drop whitespace from both ends. -/
def pyStrip (l : List Char) : List Char :=
  ((l.dropWhile pyIsSpace).reverse.dropWhile pyIsSpace).reverse

/-- Python `line.rstrip()`: drop whitespace from the right end only. -/
def pyRstrip (l : List Char) : List Char :=
  (l.reverse.dropWhile pyIsSpace).reverse

/-- Helper for `readlines`: `acc` holds the current line so far, reversed. -/
def readlinesAux : List Char → List Char → List (List Char)
  | acc, [] => if acc.isEmpty then [] else [acc.reverse]
  | acc, c :: rest =>
    if c = '\n' then (c :: acc).reverse :: readlinesAux [] rest
    else readlinesAux (c :: acc) rest

/-- Python `f.readlines()`: split the file content after each newline,
keeping the newline with its line; a last line without a newline is kept. -/
def readlines (s : List Char) : List (List Char) :=
  readlinesAux [] s

/-- The paragraph styles of `parse_markdown` (line 47 of the source). -/
inductive Style where
  | TITLE
  | HEADING_1
  | HEADING_2
  | NORMAL
  | LIST_ITEM
deriving DecidableEq, Repr

/-- One parsed unit: `{'text': str, 'style': str, 'bold': bool}` (line 46). -/
structure Segment where
  text : List Char
  style : Style
  bold : Bool
deriving DecidableEq, Repr

/-- Python `content.replace('**', '')`: left-to-right removal of each
non-overlapping occurrence of a double asterisk (source line 92). -/
def replaceDoubleStar : List Char → List Char
  | '*' :: '*' :: rest => replaceDoubleStar rest
  | c :: rest => c :: replaceDoubleStar rest
  | [] => []

/-- Python `content.replace('*', '')` (source line 92). -/
def replaceStar : List Char → List Char
  | '*' :: rest => replaceStar rest
  | c :: rest => c :: replaceStar rest
  | [] => []

/-- Source lines 64-79: style determination by `startswith` checks, in the
source's order (`'# '`, then `'## '`, then `'### '`, then list markers),
yielding the style and the content with the marker stripped. -/
def detect_style (line : List Char) : Style × List Char :=
  if List.isPrefixOf ['#', ' '] line then (Style.TITLE, line.drop 2)
  else if List.isPrefixOf ['#', '#', ' '] line then (Style.HEADING_1, line.drop 3)
  else if List.isPrefixOf ['#', '#', '#', ' '] line then (Style.HEADING_2, line.drop 4)
  else if List.isPrefixOf ['-', ' '] line || List.isPrefixOf ['*', ' '] line then
    (Style.LIST_ITEM, '\t' :: line.drop 2)
  else (Style.NORMAL, line)

/-- Source lines 86-89: the line is bold iff the content both starts and ends
with `**`, in which case `content[2:-2]` is taken (Python slicing clips,
hence the `take (length - 4)`). -/
def emphasis_split (content : List Char) : Bool × List Char :=
  if List.isPrefixOf ['*', '*'] content && List.isSuffixOf ['*', '*'] content then
    (true, (content.drop 2).take (content.length - 4))
  else (false, content)

/-- Source line 92: `content.replace('**', '').replace('*', '')`. -/
def clean_stars (content : List Char) : List Char :=
  replaceStar (replaceDoubleStar content)

/-- The segment built from a stripped non-blank line (source lines 64-94). -/
def mk_segment (line : List Char) : Segment :=
  let sc := detect_style line
  let bc := emphasis_split sc.2
  ⟨clean_stars bc.2 ++ ['\n'], sc.1, bc.1⟩

/-- The segment a blank line emits (source line 60). -/
def blank_segment : Segment := ⟨['\n'], Style.NORMAL, false⟩

/-- The loop of `parse_markdown` (source lines 56-94), with the
`current_segment` variable threaded explicitly.  On a blank line a pending
segment is flushed and a blank segment appended; a non-blank line appends its
segment and leaves `current_segment` untouched.  The loop never assigns a
non-`none` value to `current_segment`, but the embedding keeps it faithful. -/
def parse_lines (cur : Option Segment) : List (List Char) → List Segment
  | [] => []
  | raw :: rest =>
    let line := pyStrip raw
    if line.isEmpty then
      (match cur with | some s => [s] | none => []) ++
        blank_segment :: parse_lines none rest
    else
      mk_segment line :: parse_lines cur rest

/-- `parse_markdown` (source lines 43-96), as a function of the file content. -/
def parse_markdown (content : List Char) : List Segment :=
  parse_lines none (readlines content)

/-- The single segment produced for one source line. -/
def line_segment (raw : List Char) : Segment :=
  let line := pyStrip raw
  if line.isEmpty then blank_segment else mk_segment line

/-- One entry of the `requests` list built by `create_document`
(source lines 128-187).  `insertText` always carries
`endOfSegmentLocation: {}` in the source, so only the text is recorded;
`updateTextStyle` always sets `bold: True`, so only the range is recorded. -/
inductive Request where
  | insertText (text : List Char)
  | updateParagraphStyle (startIndex endIndex : Int) (namedStyleType : String)
  | updateTextStyle (startIndex endIndex : Int)
deriving DecidableEq, Repr

/-- Source lines 144-147: the named style, defaulting to `NORMAL_TEXT`. -/
def named_style : Style → String
  | Style.TITLE => "TITLE"
  | Style.HEADING_1 => "HEADING_1"
  | Style.HEADING_2 => "HEADING_2"
  | _ => "NORMAL_TEXT"

/-- The requests one segment contributes at cursor `current_index`
(source lines 123-187): the insertion, then the paragraph-style operation for
non-NORMAL, non-LIST_ITEM styles over `[current_index, current_index +
len(text) - 1)`, then the bold text-style operation over the same range. -/
def segment_requests (current_index : Int) (segment : Segment) : List Request :=
  let text := segment.text
  let start_idx := current_index
  let end_idx := current_index + (text.length : Int) - 1
  [Request.insertText text] ++
    (if segment.style ≠ Style.NORMAL ∧ segment.style ≠ Style.LIST_ITEM then
      [Request.updateParagraphStyle start_idx end_idx (named_style segment.style)]
    else []) ++
    (if segment.bold then [Request.updateTextStyle start_idx end_idx] else [])

/-- The loop of source lines 123-189: fold over the segments, advancing the
cursor by `len(text)` after each one. -/
def build_requests_from (current_index : Int) : List Segment → List Request
  | [] => []
  | segment :: rest =>
    segment_requests current_index segment ++
      build_requests_from (current_index + (segment.text.length : Int)) rest

/-- The full request list, with the cursor initialised to 1 (source line 121). -/
def build_requests (content_segments : List Segment) : List Request :=
  build_requests_from 1 content_segments

/-- Does a range-based request satisfy `start < end`?  (Insertions carry no
range.) -/
def range_ok : Request → Bool
  | Request.insertText _ => true
  | Request.updateParagraphStyle s e _ => decide (s < e)
  | Request.updateTextStyle s e => decide (s < e)

instance {ε α : Type} [DecidableEq ε] [DecidableEq α] : DecidableEq (Except ε α) :=
  fun a b =>
    match a, b with
    | Except.error x, Except.error y => decidable_of_iff (x = y) (by simp)
    | Except.error _, Except.ok _ => isFalse (fun hc => Except.noConfusion hc)
    | Except.ok _, Except.error _ => isFalse (fun hc => Except.noConfusion hc)
    | Except.ok x, Except.ok y => decidable_of_iff (x = y) (by simp)

/-- The outcomes of the two remote calls `create_document` makes:
`documents().create(...).execute()` yields the new document's identifier or
raises, and `batchUpdate(...).execute()` succeeds or raises. -/
structure DocsService where
  create_result : Except String String
  batch_result : Except String Unit
deriving DecidableEq, Repr

/-- Everything observable about one run of `create_document`: the lines it
printed, the request list sent to `batchUpdate` (`none` when no batch call was
made), and either the propagated remote error or the Python return value
(`create_document` has no `return` statement, so it returns `None`). -/
structure BuildRun where
  printed : List String
  batch_sent : Option (List Request)
  result : Except String (Option String)
deriving DecidableEq, Repr

/-- `create_document` (source lines 98-195). -/
def create_document (service : DocsService) (title : String)
    (content_segments : List Segment) : BuildRun :=
  match service.create_result with
  | Except.error e => ⟨[], none, Except.error e⟩
  | Except.ok doc_id =>
    let printed := ["Created document with title: " ++ title,
                    "Document ID: " ++ doc_id]
    let requests := build_requests content_segments
    if requests.isEmpty then ⟨printed, none, Except.ok none⟩
    else
      match service.batch_result with
      | Except.error e => ⟨printed, some requests, Except.error e⟩
      | Except.ok _ =>
        ⟨printed ++ ["Content inserted and formatted.",
          "View your document here: https://docs.google.com/document/d/" ++ doc_id],
         some requests, Except.ok none⟩

/-- The state of a loaded `google.oauth2` credential object.  The library
defines `valid` as "an access token is present and not expired", so it is a
derived property here, not an independent field. -/
structure Token where
  has_access : Bool
  expired : Bool
  refresh_token : Bool
deriving DecidableEq, Repr

/-- Property `creds.valid` of the client library: token present, not expired. -/
def Token.valid (c : Token) : Bool := c.has_access && !c.expired

/-- The environment `get_credentials` runs in: the parsed content of
`token.json` when that file exists, the outcome of `creds.refresh(Request())`
(the refreshed credential, or the raised error), whether `credentials.json`
exists, and the credential produced by the interactive
`flow.run_local_server` flow. -/
structure AuthEnv where
  token_file : Option Token
  refresh_result : Except String Token
  has_credentials_file : Bool
  flow_result : Token
deriving DecidableEq, Repr

/-- Everything observable about one run of `get_credentials`: printed lines,
the credential written to `token.json` (if any), and either the propagated
error or the returned value (`None` in the missing-`credentials.json` case). -/
structure AuthRun where
  printed : List String
  saved : Option Token
  result : Except String (Option Token)
deriving DecidableEq, Repr

/-- The remediation message printed when `credentials.json` is missing
(source lines 30-32). -/
def remediation_lines : List String :=
  ["ERROR: credentials.json not found.",
   "Please download your OAuth 2.0 Client credentials from the Google Cloud Console",
   "and save them as \x27credentials.json\x27 in this directory."]

/-- The interactive branch of `get_credentials` (source lines 29-40): missing
`credentials.json` prints the remediation message and returns `None` without
saving; otherwise the flow's credential is saved and returned. -/
def run_interactive_flow (env : AuthEnv) : AuthRun :=
  if env.has_credentials_file then
    ⟨[], some env.flow_result, Except.ok (some env.flow_result)⟩
  else
    ⟨remediation_lines, none, Except.ok none⟩

/-- `get_credentials` (source lines 14-41).  A valid persisted token is
returned unchanged; an expired one with a refresh value is refreshed
(`creds.refresh` raising propagates the error); otherwise the interactive
flow runs.  Refreshed and freshly authorised credentials are written to
`token.json` (source lines 39-40). -/
def get_credentials (env : AuthEnv) : AuthRun :=
  match env.token_file with
  | some c =>
    if c.valid then ⟨[], none, Except.ok (some c)⟩
    else if c.expired && c.refresh_token then
      match env.refresh_result with
      | Except.ok c2 => ⟨[], some c2, Except.ok (some c2)⟩
      | Except.error e => ⟨[], none, Except.error e⟩
    else run_interactive_flow env
  | none => run_interactive_flow env

/-- The document title constant (source line 11). -/
def DOCUMENT_TITLE : String := "GigYYC Strategic Business Plan"

/-- Everything observable about one run of `main` (source lines 197-205):
printed lines, whether the remote create call was issued, and whether the run
finished normally or propagated an error. -/
structure MainRun where
  printed : List String
  create_attempted : Bool
  result : Except String Unit
deriving DecidableEq, Repr

/-- `main` (source lines 197-205), as a function of the auth environment, the
Docs service outcomes and the content of the markdown file. -/
def main_run (env : AuthEnv) (service : DocsService) (md_content : List Char) :
    MainRun :=
  let a := get_credentials env
  match a.result with
  | Except.error e => ⟨a.printed, false, Except.error e⟩
  | Except.ok none => ⟨a.printed, false, Except.ok ()⟩
  | Except.ok (some _) =>
    let b := create_document service DOCUMENT_TITLE (parse_markdown md_content)
    ⟨a.printed ++ b.printed, true, Except.map (fun _ => ()) b.result⟩

/-- Does the persisted-token state send `get_credentials` into the
interactive branch?  True when no token is persisted, or the token is invalid
and not refreshable (source lines 25-28). -/
def needs_interactive : Option Token → Bool
  | none => true
  | some c => !c.valid && !(c.expired && c.refresh_token)

/-- A persisted expired token with a refresh value whose refresh exchange
fails, with `credentials.json` present: the input on which claim C4's
fall-through assertion is tested. -/
def c4_env : AuthEnv :=
  ⟨some ⟨true, true, true⟩, Except.error ("refresh failed"), true,
   ⟨true, false, true⟩⟩

/-- The style/content determination in the precedence order the specification
states it: `"### "`, then `"## "`, then `"# "`, then list markers, else
NORMAL.  (The source checks `"# "` first; the orders agree because the three
heading markers are mutually exclusive.) -/
def spec_detect (line : List Char) : Style × List Char :=
  if List.isPrefixOf ['#', '#', '#', ' '] line then (Style.HEADING_2, line.drop 4)
  else if List.isPrefixOf ['#', '#', ' '] line then (Style.HEADING_1, line.drop 3)
  else if List.isPrefixOf ['#', ' '] line then (Style.TITLE, line.drop 2)
  else if List.isPrefixOf ['-', ' '] line || List.isPrefixOf ['*', ' '] line then
    (Style.LIST_ITEM, '\t' :: line.drop 2)
  else (Style.NORMAL, line)

/-- The per-line text transform `parse_markdown` applies, worded from the
specification: trim whitespace from both ends; a blank line becomes a bare
newline; otherwise strip the style marker (spec precedence order, with list
markers replaced by one tab), strip a surrounding pair of double-asterisk
emphasis markers when present, delete any remaining asterisk markers, and
terminate with a newline. -/
def cleaned_line (raw : List Char) : List Char :=
  let line := pyStrip raw
  if line.isEmpty then ['\n']
  else clean_stars (emphasis_split (spec_detect line).2).2 ++ ['\n']

/-- The concatenation, in order, of the texts of a list of segments. -/
def segment_texts (segs : List Segment) : List Char :=
  (segs.map Segment.text).flatten

/-- The reconstruction claim C2 literally asserts, modelled from the claim's
words: the original content with, per line, trailing whitespace trimmed and
emphasis markers stripped (the line terminator restored per line); no style
markers are removed and no leading whitespace is touched. -/
def c2_claimed_transform (content : List Char) : List Char :=
  ((readlines content).map (fun l => clean_stars (pyRstrip l) ++ ['\n'])).flatten

theorem detect_style_eq_spec (l : List Char) : detect_style l = spec_detect l := by
  match l with
  | [] => rfl
  | [c] => simp [detect_style, spec_detect, List.isPrefixOf]
  | c1 :: c2 :: t =>
    by_cases h1 : c1 = '#'
    · subst h1
      by_cases h2 : c2 = ' '
      · subst h2
        simp [detect_style, spec_detect, List.isPrefixOf]
      · by_cases h2' : c2 = '#'
        · subst h2'
          match t with
          | [] => simp [detect_style, spec_detect, List.isPrefixOf]
          | c3 :: t' =>
            by_cases h3 : c3 = ' '
            · subst h3
              simp [detect_style, spec_detect, List.isPrefixOf]
            · by_cases h3' : c3 = '#'
              · subst h3'
                match t' with
                | [] => simp [detect_style, spec_detect, List.isPrefixOf]
                | c4 :: t'' =>
                  simp [detect_style, spec_detect, List.isPrefixOf]
              · have ha : ' ' ≠ c3 := fun h => h3 h.symm
                have hb : '#' ≠ c3 := fun h => h3' h.symm
                simp [detect_style, spec_detect, List.isPrefixOf, ha, hb]
        · have ha : ' ' ≠ c2 := fun h => h2 h.symm
          have hb : '#' ≠ c2 := fun h => h2' h.symm
          simp [detect_style, spec_detect, List.isPrefixOf, ha, hb]
    · have ha : '#' ≠ c1 := fun h => h1 h.symm
      simp [detect_style, spec_detect, List.isPrefixOf, ha]

/-- `current_segment` is only ever `None` in the source, so the parse loop is
a per-line map. -/
theorem parse_lines_none_eq_map (ls : List (List Char)) :
    parse_lines none ls = ls.map line_segment := by
  induction ls with
  | nil => rfl
  | cons raw rest ih =>
    by_cases h : (pyStrip raw).isEmpty
    · simp [parse_lines, line_segment, h, ih]
    · simp [parse_lines, line_segment, h, ih]

theorem line_segment_text (raw : List Char) :
    (line_segment raw).text = cleaned_line raw := by
  simp only [line_segment, cleaned_line, mk_segment, blank_segment,
    detect_style_eq_spec]
  by_cases h : (pyStrip raw).isEmpty <;> simp [h]

theorem dropWhile_space_append (ws l : List Char)
    (hws : ∀ c ∈ ws, pyIsSpace c = true) :
    (ws ++ l).dropWhile pyIsSpace = l.dropWhile pyIsSpace := by
  induction ws with
  | nil => rfl
  | cons c ws' ih =>
    have hc : pyIsSpace c = true := hws c (by simp)
    simp only [List.cons_append, List.dropWhile_cons, hc, if_true]
    exact ih (fun d hd => hws d (by simp [hd]))

theorem pyStrip_space_append (ws l : List Char)
    (hws : ∀ c ∈ ws, pyIsSpace c = true) :
    pyStrip (ws ++ l) = pyStrip l := by
  simp only [pyStrip, dropWhile_space_append ws l hws]

theorem pyStrip_all_space (l : List Char) (h : ∀ c ∈ l, pyIsSpace c = true) :
    pyStrip l = [] := by
  have : l.dropWhile pyIsSpace = [] := by
    induction l with
    | nil => rfl
    | cons c l' ih =>
      have hc : pyIsSpace c = true := h c (by simp)
      simp only [List.dropWhile_cons, hc, if_true]
      exact ih (fun d hd => h d (by simp [hd]))
  simp [pyStrip, this]

example : parse_markdown (String.toList "# Title") =
    [⟨String.toList "Title\n", Style.TITLE, false⟩] := by decide

example : parse_markdown (String.toList "- item") =
    [⟨String.toList "\titem\n", Style.LIST_ITEM, false⟩] := by decide

example : parse_markdown (String.toList "**Bold line**") =
    [⟨String.toList "Bold line\n", Style.NORMAL, true⟩] := by decide

example : parse_markdown (String.toList "a\n\nb") =
    [⟨String.toList "a\n", Style.NORMAL, false⟩,
     ⟨String.toList "\n", Style.NORMAL, false⟩,
     ⟨String.toList "b\n", Style.NORMAL, false⟩] := by decide

example : parse_markdown (String.toList "# *") =
    [⟨String.toList "\n", Style.TITLE, false⟩] := by decide

example : build_requests (parse_markdown (String.toList "# *")) =
    [Request.insertText ['\n'], Request.updateParagraphStyle 1 1 ("TITLE")] := by
  decide

example :
    create_document ⟨Except.ok ("D1"), Except.ok ()⟩ ("T")
        [⟨['a', '\n'], Style.NORMAL, false⟩] =
      ⟨["Created document with title: T", "Document ID: D1",
        "Content inserted and formatted.",
        "View your document here: https://docs.google.com/document/d/D1"],
       some [Request.insertText ['a', '\n']], Except.ok none⟩ := by decide

/-- Claim C1 (code evaluation at the failing input): the markdown file whose
single line is "# *" parses to a TITLE segment whose text is just the
newline, so the batch builder emits a set-paragraph-style operation whose
range is `[1, 1)` — empty, violating the required `start < end` for styled
segments (and the source's own comment that non-blank segments have
length at least 2). -/
theorem C1_range_violation :
    build_requests (parse_markdown (String.toList "# *")) =
      [Request.insertText ['\n'], Request.updateParagraphStyle 1 1 ("TITLE")] ∧
    (build_requests (parse_markdown (String.toList "# *"))).all range_ok = false :=
  ⟨by decide, by decide⟩

/-- Counterexample to claim C2 as stated: for the input "# T" the
concatenated segment texts are "T\n", while the original content modulo
per-line trailing-whitespace trimming and emphasis-marker stripping is
"# T\n" — the heading marker is removed as well, so the two differ. -/
theorem C2_counterexample :
    segment_texts (parse_markdown (String.toList "# T")) ≠
      c2_claimed_transform (String.toList "# T") := by decide

/-- Claim C2 (amended): the texts of the segments returned by parse,
concatenated in order, equal the original content transformed per source
line by trimming whitespace from both ends, stripping the matched style
marker (heading markers dropped, list markers replaced by one tab),
stripping emphasis markers, and appending a terminating newline (blank
lines becoming a bare newline); in particular parse yields exactly one
segment per source line, in order. -/
theorem C2_texts_reconstruction (content : List Char) :
    segment_texts (parse_markdown content) =
      ((readlines content).map cleaned_line).flatten := by
  have hfun : Segment.text ∘ line_segment = cleaned_line := funext line_segment_text
  simp [parse_markdown, segment_texts, parse_lines_none_eq_map, List.map_map, hfun]

/-- Counterexample to claim C3 as stated: on a run where both remote calls
succeed, `create_document` falls off its end, so its value is `None` — the
document identifier "D1" is printed but not returned to the caller. -/
theorem C3_counterexample :
    (create_document ⟨Except.ok ("D1"), Except.ok ()⟩ ("T")
        [⟨['a', '\n'], Style.NORMAL, false⟩]).result = Except.ok none ∧
    (Except.ok none : Except String (Option String)) ≠ Except.ok (some ("D1")) :=
  ⟨by decide, by decide⟩

/-- Claim C3 (amended): whenever the create call succeeds, `create_document`
prints the created document's identifier before any batch call, so the
identifier is made known on standard output on success and on batch rejection
alike; a rejected batch surfaces the remote error (the run does not silently
succeed); the function's return value is `None`, not the identifier. -/
theorem C3_doc_id_reporting (service : DocsService) (title : String)
    (segs : List Segment) (doc_id : String)
    (hc : service.create_result = Except.ok doc_id) :
    ("Document ID: " ++ doc_id) ∈ (create_document service title segs).printed ∧
    (service.batch_result = Except.ok () →
      (create_document service title segs).result = Except.ok none) ∧
    (∀ e, service.batch_result = Except.error e → build_requests segs ≠ [] →
      (create_document service title segs).result = Except.error e) := by
  refine ⟨?_, ?_, ?_⟩
  · by_cases hreq : (build_requests segs).isEmpty
    · simp [create_document, hc, hreq]
    · cases hb : service.batch_result with
      | ok u => simp [create_document, hc, hreq, hb]
      | error e => simp [create_document, hc, hreq, hb]
  · intro hb
    by_cases hreq : (build_requests segs).isEmpty
    · simp [create_document, hc, hreq]
    · simp [create_document, hc, hreq, hb]
  · intro e hb hne
    have hreq : (build_requests segs).isEmpty = false := by
      simpa [List.isEmpty_iff] using hne
    simp [create_document, hc, hreq, hb]

/-- Witness for the amended C3 theorem at a concrete service whose batch call
is rejected: the identifier line is printed and the batch error propagates. -/
theorem C3_doc_id_reporting_witness :
    ("Document ID: " ++ "D1") ∈
      (create_document ⟨Except.ok ("D1"), Except.error ("batch rejected")⟩ ("T")
        [⟨['a', '\n'], Style.NORMAL, false⟩]).printed ∧
    (create_document ⟨Except.ok ("D1"), Except.error ("batch rejected")⟩ ("T")
        [⟨['a', '\n'], Style.NORMAL, false⟩]).result =
      Except.error ("batch rejected") := by
  have h := C3_doc_id_reporting ⟨Except.ok ("D1"), Except.error ("batch rejected")⟩
    ("T") [⟨['a', '\n'], Style.NORMAL, false⟩] ("D1") rfl
  exact ⟨h.1, h.2.2 ("batch rejected") rfl (by decide)⟩

/-- Counterexample to claim C4 as stated: with a persisted expired
refreshable token, a failing refresh exchange and `credentials.json` present,
the code propagates the refresh error instead of falling through to the
interactive flow — nothing is saved and the flow's credential is not
returned. -/
theorem C4_counterexample :
    get_credentials c4_env = ⟨[], none, Except.error ("refresh failed")⟩ ∧
    (get_credentials c4_env).result ≠ Except.ok (some c4_env.flow_result) :=
  ⟨by decide, by decide⟩

/-- Claim C4 (amended): for every run with a persisted expired token carrying
a refresh value, the credential manager attempts the refresh exchange; on
success it persists and returns the refreshed token, and on refresh failure
the error propagates — the interactive re-authorization flow is not
attempted. -/
theorem C4_refresh_behaviour (env : AuthEnv) (c : Token)
    (hc : env.token_file = some c) (he : c.expired = true)
    (hr : c.refresh_token = true) :
    (∀ t, env.refresh_result = Except.ok t →
      get_credentials env = ⟨[], some t, Except.ok (some t)⟩) ∧
    (∀ e, env.refresh_result = Except.error e →
      get_credentials env = ⟨[], none, Except.error e⟩) := by
  have hv : c.valid = false := by simp [Token.valid, he]
  constructor
  · intro t ht
    simp [get_credentials, hc, hv, he, hr, ht]
  · intro e hE
    simp [get_credentials, hc, hv, he, hr, hE]

/-- Witness for the amended C4 theorem: a successful refresh returns and
saves the refreshed token; a failing refresh propagates its error. -/
theorem C4_refresh_behaviour_witness :
    get_credentials ⟨some ⟨true, true, true⟩, Except.ok ⟨true, false, true⟩,
        true, ⟨true, false, false⟩⟩ =
      ⟨[], some ⟨true, false, true⟩, Except.ok (some ⟨true, false, true⟩)⟩ ∧
    get_credentials ⟨some ⟨false, true, true⟩, Except.error ("e"),
        true, ⟨true, false, false⟩⟩ =
      ⟨[], none, Except.error ("e")⟩ := by
  refine ⟨(C4_refresh_behaviour ⟨some ⟨true, true, true⟩,
      Except.ok ⟨true, false, true⟩, true, ⟨true, false, false⟩⟩
      ⟨true, true, true⟩ rfl rfl rfl).1 ⟨true, false, true⟩ rfl,
    (C4_refresh_behaviour ⟨some ⟨false, true, true⟩, Except.error ("e"),
      true, ⟨true, false, false⟩⟩
      ⟨false, true, true⟩ rfl rfl rfl).2 ("e") rfl⟩

/-- Claim C5: with no segments the builder creates the document (printing its
title and identifier), generates an empty operation list, issues no
batch-update call, and finishes successfully — for every batch-call outcome,
since the batch endpoint is never consulted. -/
theorem C5_empty_segments (service : DocsService) (title doc_id : String)
    (h : service.create_result = Except.ok doc_id) :
    create_document service title [] =
      ⟨["Created document with title: " ++ title, "Document ID: " ++ doc_id],
       none, Except.ok none⟩ := by
  simp [create_document, h, build_requests, build_requests_from]

/-- Witness for C5 at a service whose batch endpoint would reject: no batch
call is made and the run still succeeds. -/
theorem C5_empty_segments_witness :
    create_document ⟨Except.ok ("D1"), Except.error ("batch rejected")⟩ ("T") [] =
      ⟨["Created document with title: " ++ "T", "Document ID: " ++ "D1"],
       none, Except.ok none⟩ :=
  C5_empty_segments ⟨Except.ok ("D1"), Except.error ("batch rejected")⟩ ("T") ("D1") rfl

/-- Claim C6: for the segments `["Title\n" TITLE, "Body\n" NORMAL]` the TITLE
style operation covers exactly `[1, 6)` and the cursor equals 7 when the
second segment is processed; in general the cursor starts at 1 and advances
by the text length after each segment. -/
theorem C6_title_range_and_cursor :
    build_requests
        [⟨String.toList "Title\n", Style.TITLE, false⟩,
         ⟨String.toList "Body\n", Style.NORMAL, false⟩] =
      [Request.insertText (String.toList "Title\n"),
       Request.updateParagraphStyle 1 6 ("TITLE"),
       Request.insertText (String.toList "Body\n")] ∧
    build_requests_from 1
        [⟨String.toList "Title\n", Style.TITLE, false⟩,
         ⟨String.toList "Body\n", Style.NORMAL, false⟩] =
      segment_requests 1 ⟨String.toList "Title\n", Style.TITLE, false⟩ ++
        build_requests_from 7 [⟨String.toList "Body\n", Style.NORMAL, false⟩] ∧
    (∀ segs, build_requests segs = build_requests_from 1 segs) ∧
    (∀ (i : Int) (seg : Segment) (rest : List Segment),
      build_requests_from i (seg :: rest) =
        segment_requests i seg ++
          build_requests_from (i + (seg.text.length : Int)) rest) :=
  ⟨by decide, by decide, fun _ => rfl, fun _ _ _ => rfl⟩

/-- Claim C7: for every non-blank input line, the assigned style follows the
stated prefix precedence — "### " yields HEADING_2 (never HEADING_1 or
TITLE), "## " yields HEADING_1, "# " yields TITLE, "- " or "* " yields
LIST_ITEM, anything else NORMAL — and the matched prefix is stripped from
the content (which then undergoes the emphasis-marker pass). -/
theorem C7_prefix_precedence (raw : List Char) (h : pyStrip raw ≠ []) :
    (line_segment raw).style = (spec_detect (pyStrip raw)).1 ∧
    (line_segment raw).text =
      clean_stars (emphasis_split (spec_detect (pyStrip raw)).2).2 ++ ['\n'] := by
  have hne : (pyStrip raw).isEmpty = false := by
    simpa [List.isEmpty_iff] using h
  constructor
  · simp [line_segment, hne, mk_segment, detect_style_eq_spec]
  · simp [line_segment, hne, mk_segment, detect_style_eq_spec]

/-- Witness for C7 at the precedence-check input "### Sub": classified
HEADING_2 with the "### " marker stripped. -/
theorem C7_prefix_precedence_witness :
    pyStrip (String.toList "### Sub") ≠ [] ∧
    ((line_segment (String.toList "### Sub")).style =
        (spec_detect (pyStrip (String.toList "### Sub"))).1 ∧
      (line_segment (String.toList "### Sub")).text =
        clean_stars
          (emphasis_split (spec_detect (pyStrip (String.toList "### Sub"))).2).2 ++
          ['\n']) :=
  ⟨by decide, C7_prefix_precedence (String.toList "### Sub") (by decide)⟩

/-- Claim C9: the line "- item" (and equally "* item") yields exactly one
LIST_ITEM segment, not bold, with text "\titem\n". -/
theorem C9_list_marker_segments :
    parse_markdown (String.toList "- item") =
      [⟨String.toList "\titem\n", Style.LIST_ITEM, false⟩] ∧
    parse_markdown (String.toList "* item") =
      [⟨String.toList "\titem\n", Style.LIST_ITEM, false⟩] :=
  ⟨by decide, by decide⟩

/-- Claim C10: leading whitespace is stripped alongside trailing whitespace
before classification: prepending whitespace to a line never changes its
segment (so an indented marker is classified as if unindented and no leading
indentation from the source reaches a segment's text), and a
whitespace-only line is treated as a blank line. -/
theorem C10_leading_whitespace_stripped (ws l : List Char)
    (hws : ∀ c ∈ ws, pyIsSpace c = true) :
    line_segment (ws ++ l) = line_segment l ∧
    ((∀ c ∈ l, pyIsSpace c = true) → line_segment l = blank_segment) := by
  constructor
  · simp [line_segment, pyStrip_space_append ws l hws]
  · intro hl
    simp [line_segment, pyStrip_all_space l hl]

/-- Witness for C10: "  - item" parses like "- item", and the
whitespace-only line " \t" becomes a blank-line segment. -/
theorem C10_leading_whitespace_stripped_witness :
    line_segment (String.toList "  " ++ String.toList "- item") =
      line_segment (String.toList "- item") ∧
    line_segment (String.toList " \t") = blank_segment := by
  have h1 := C10_leading_whitespace_stripped (String.toList "  ")
    (String.toList "- item") (by decide)
  have h2 := C10_leading_whitespace_stripped [] (String.toList " \t")
    (by intro c hc; cases hc)
  exact ⟨h1.1, h2.2 (by decide)⟩

/-- `get_credentials` returns `None` only on the missing-`credentials.json`
path, where it prints the remediation message and saves nothing. -/
theorem get_credentials_result_none (env : AuthEnv)
    (h : (get_credentials env).result = Except.ok none) :
    env.has_credentials_file = false ∧
    get_credentials env = ⟨remediation_lines, none, Except.ok none⟩ := by
  rcases env with ⟨tok, rr, hcf, fr⟩
  cases tok with
  | none =>
    cases hcf with
    | false => exact ⟨rfl, by simp [get_credentials, run_interactive_flow]⟩
    | true => simp [get_credentials, run_interactive_flow] at h
  | some c =>
    by_cases hv : c.valid
    · simp [get_credentials, hv] at h
    · by_cases her : c.expired && c.refresh_token
      · cases rr with
        | ok t => simp [get_credentials, hv, her] at h
        | error e => simp [get_credentials, hv, her] at h
      · cases hcf with
        | false =>
          exact ⟨rfl, by simp [get_credentials, run_interactive_flow, hv, her]⟩
        | true => simp [get_credentials, run_interactive_flow, hv, her] at h

/-- Claim C8: when `credentials.json` is absent and no valid or refreshable
token is persisted, the run prints the remediation instructions to standard
output and finishes normally without attempting to create any remote
document; and conversely, any run that finishes normally without attempting
the create call is exactly this missing-configuration case — every other
failure propagates rather than being caught. -/
theorem C8_missing_config :
    (∀ (env : AuthEnv) (service : DocsService) (md : List Char),
      needs_interactive env.token_file = true →
      env.has_credentials_file = false →
      get_credentials env = ⟨remediation_lines, none, Except.ok none⟩ ∧
      main_run env service md = ⟨remediation_lines, false, Except.ok ()⟩) ∧
    (∀ (env : AuthEnv) (service : DocsService) (md : List Char),
      (main_run env service md).result = Except.ok () →
      (main_run env service md).create_attempted = false →
      env.has_credentials_file = false ∧
      (main_run env service md).printed = remediation_lines) := by
  constructor
  · intro env service md hni hcf
    have hg : get_credentials env = ⟨remediation_lines, none, Except.ok none⟩ := by
      rcases env with ⟨tok, rr, hcfv, fr⟩
      cases tok with
      | none =>
        cases hcfv with
        | false => simp [get_credentials, run_interactive_flow]
        | true => exact absurd hcf (by simp)
      | some c =>
        simp only [needs_interactive, Bool.and_eq_true, Bool.not_eq_true'] at hni
        have hv : c.valid = false := hni.1
        have her : (c.expired && c.refresh_token) = false := hni.2
        cases hcfv with
        | false => simp [get_credentials, run_interactive_flow, hv, her]
        | true => exact absurd hcf (by simp)
    refine ⟨hg, ?_⟩
    simp [main_run, hg]
  · intro env service md hok hca
    rcases hres : (get_credentials env).result with e | o
    · simp [main_run, hres] at hok
    · cases o with
      | none =>
        have hmc := get_credentials_result_none env hres
        refine ⟨hmc.1, ?_⟩
        simp [main_run, hres, hmc.2]
      | some t => simp [main_run, hres] at hca

/-- Witness for C8 at a concrete environment with no persisted token and no
`credentials.json`: the remediation message is printed and the run ends
normally without attempting the create call. -/
theorem C8_missing_config_witness :
    get_credentials ⟨none, Except.error ("x"), false, ⟨true, false, false⟩⟩ =
      ⟨remediation_lines, none, Except.ok none⟩ ∧
    main_run ⟨none, Except.error ("x"), false, ⟨true, false, false⟩⟩
        ⟨Except.ok ("D"), Except.ok ()⟩ [] =
      ⟨remediation_lines, false, Except.ok ()⟩ :=
  C8_missing_config.1 ⟨none, Except.error ("x"), false, ⟨true, false, false⟩⟩
    ⟨Except.ok ("D"), Except.ok ()⟩ [] rfl rfl
